import Mathlib

/-!
Shallow embedding of the voting-ledger gateway client (`src/app.ts`) and
verification of the specification's claims about it.

The client repurposes a generic five-field asset schema as a vote tally:
`Owner` holds the candidate name and `Size` the vote count encoded as a
numeric string (spec §3).  Transactions submitted to the ledger are
modelled as values of an inductive `Tx` type; each client operation is
embedded as a pure function from its decoded inputs to the list of
transactions it submits, with fallible stages modelled by `Except`.
-/

set_option autoImplicit false

namespace VotingLedger

/-- Asset record as decoded from the `GetAllAssets` JSON payload.  Per the
spec's data model (§3) all five fields are strings; in particular `Size` is
"a vote count encoded as a numeric string" (the client itself always submits
sizes as string literals such as `'1'` and `'2'`). -/
structure Asset where
  ID : String
  Color : String
  Size : String
  Owner : String
  AppraisedValue : String
deriving Repr, DecidableEq

/-- Transaction submitted through `contract.submitTransaction`, with the fixed
contract-function name and its five positional string arguments. -/
inductive Tx where
  | createAsset (id color size owner appraisedValue : String)
  | updateAsset (id color size owner appraisedValue : String)
deriving Repr, DecidableEq

/-- Prefix test on character lists; auxiliary to `charsInfixOf`. -/
def charsPrefixOf : List Char → List Char → Bool
  | [], _ => true
  | _ :: _, [] => false
  | c :: cs, d :: ds => c == d && charsPrefixOf cs ds

/-- Substring (contiguous infix) test on character lists: true exactly when
`needle` occurs as a prefix at some position of `haystack`, including the
position past the last character (so the empty needle always occurs). -/
def charsInfixOf (needle : List Char) : List Char → Bool
  | [] => charsPrefixOf needle []
  | d :: rest => charsPrefixOf needle (d :: rest) || charsInfixOf needle rest

/-- Embeds the JavaScript test `owner.indexOf(name) != -1` used by both scan
loops: `String.prototype.indexOf` returns the first index at which `name`
occurs as a substring of `owner` and `-1` when it does not occur, so the test
is exactly substring containment (case-sensitive; the empty string occurs in
every string at index 0). -/
def strIncludes (owner name : String) : Bool :=
  charsInfixOf name.toList owner.toList

/-- Embeds the scan loop shared by `createAssetWithName` (app.ts lines
285-307) and `readAssetByName` (lines 395-413): iterate over the decoded
collection in order (`for (const key in result)` over the decoded JSON array
visits index keys in ascending order), return the first record whose `Owner`
field contains the candidate name as a substring, stopping at the first match
(`break`). -/
def findMatch (name : String) : List Asset → Option Asset
  | [] => none
  | a :: rest => if strIncludes a.Owner name then some a else findMatch name rest

/-- Embeds the size computation `(result[key].Size + 1).toString()` at app.ts
line 301.  With `Size` a string (the decoded schema per spec §3), the
JavaScript binary `+` on a string and a number performs string concatenation
of the string with the number's decimal rendering, so the computed value is
`Size` with the character `1` appended — e.g. `"2"` becomes `"21"`, not
`"3"`. -/
def jsSizePlusOne (size : String) : String :=
  size ++ "1"

/-- Embeds the fresh-identifier generation
`assetId = asset + String(Math.floor(Math.random() * 10000000000))`
(app.ts lines 77, 187, 322): the random draw is abstracted as the `rnd`
parameter. -/
def freshAssetId (rnd : Nat) : String :=
  "asset" ++ toString rnd

/-- Embeds the decision-and-commit part of `createAssetWithName` (app.ts
lines 277-335), as a function from the decoded asset collection, candidate
name and random draw to the list of transactions submitted: if the scan found
a match, one `UpdateAsset` for the matched record's `ID` with the computed
size and the candidate name as owner, empty color and appraised value;
otherwise one `CreateAsset` for a fresh identifier with size `'1'`, the
candidate name as owner, empty color and appraised value. -/
def createAssetWithName (assets : List Asset) (name : String) (rnd : Nat) : List Tx :=
  match findMatch name assets with
  | some a => [Tx.updateAsset a.ID "" (jsSizePlusOne a.Size) name ""]
  | none => [Tx.createAsset (freshAssetId rnd) "" "1" name ""]

/-- Embeds the full vote invocation including its fallible front end: the
`evaluateTransaction('GetAllAssets')` call, the UTF-8 decode and the
`JSON.parse` (app.ts lines 279-284) are together modelled by the
`Except`-valued `evalAndDecode` argument.  A rejection at any of those stages
propagates out of `createAssetWithName` before any `submitTransaction` is
reached; only on success does the scan run and exactly one transaction get
submitted. -/
def createAssetWithNameRun (evalAndDecode : Except String (List Asset))
    (name : String) (rnd : Nat) : Except String (List Tx) :=
  match evalAndDecode with
  | Except.error e => Except.error e
  | Except.ok assets => Except.ok (createAssetWithName assets name rnd)

/-- Transactions actually submitted by a (possibly failed) invocation: a
failed invocation submits none. -/
def submittedTxs : Except String (List Tx) → List Tx
  | Except.error _ => []
  | Except.ok txs => txs

/-- Embeds the scan loop of `readAssetByName` (app.ts lines 383-414), which
logs the first record whose `Owner` contains the queried name and breaks; the
returned option is the record whose fields get logged (`none` when the scan
completes without a match, producing no output and no further action). -/
def readAssetByName (assets : List Asset) (name : String) : Option Asset :=
  match assets with
  | [] => none
  | a :: rest => if strIncludes a.Owner name then some a else readAssetByName rest name

/-- Embeds one `try { await contract.submitTransaction(...) } catch (error)
{ console.log(...) }` block of `initLedger` (app.ts lines 188-200, 203-215,
218-230): the ledger's response to the submission is supplied by the `submit`
oracle, and whatever it is — committed or rejected — the catch swallows the
failure, so the block always completes normally. -/
def tryCatchSubmit (submit : Tx → Except String Unit) (tx : Tx) : Except String Unit :=
  match submit tx with
  | Except.ok _ => Except.ok ()
  | Except.error _ => Except.ok ()

/-- Embeds `initLedger` (app.ts lines 182-233): three independent
`CreateAsset` submissions for the fixed seed set — owner `'Tom'` with size
`'1'`, owner `'Cat'` with size `'2'`, owner `'Dog'` with size `'2'` — each on
a freshly drawn random identifier and each wrapped in its own try/catch.  The
result is the list of transactions attempted; an error escapes only if some
submission failure is not caught (none is). -/
def initLedger (submit : Tx → Except String Unit) (r1 r2 r3 : Nat) :
    Except String (List Tx) :=
  let t1 := Tx.createAsset (freshAssetId r1) "" "1" "Tom" ""
  let t2 := Tx.createAsset (freshAssetId r2) "" "2" "Cat" ""
  let t3 := Tx.createAsset (freshAssetId r3) "" "2" "Dog" ""
  (tryCatchSubmit submit t1).bind fun _ =>
    (tryCatchSubmit submit t2).bind fun _ =>
      (tryCatchSubmit submit t3).bind fun _ =>
        Except.ok [t1, t2, t3]

/-- Embeds `evaluateOptions` (app.ts lines 91-93): deadline five seconds
(5000 ms) past the call-start time. -/
def evaluateDeadline (now : Nat) : Nat := now + 5000

/-- Embeds `endorseOptions` (app.ts lines 94-96): deadline fifteen seconds
(15000 ms) past the call-start time. -/
def endorseDeadline (now : Nat) : Nat := now + 15000

/-- Embeds `submitOptions` (app.ts lines 97-99): deadline five seconds
(5000 ms) past the call-start time. -/
def submitDeadline (now : Nat) : Nat := now + 5000

/-- Embeds `commitStatusOptions` (app.ts lines 100-102): deadline one minute
(60000 ms) past the call-start time. -/
def commitStatusDeadline (now : Nat) : Nat := now + 60000

/-- Embeds `path.join(dirPath, file)` for the simple one-segment case used by
the credential loader. -/
def joinPath (dir file : String) : String :=
  dir ++ "/" ++ file

/-- Embeds `getFirstDirFileName` (app.ts lines 162-169): the directory
listing as delivered by the file system is the `files` argument; the function
takes `files[0]` (`none` on an empty listing), throws
`No files in directory: ...` when that value is falsy (absent, or the empty
string, since JavaScript `!file` is also true for `''`), and otherwise
returns the joined path of the first entry. -/
def getFirstDirFileName (dirPath : String) (files : List String) :
    Except String String :=
  match files.head? with
  | none => Except.error ("No files in directory: " ++ dirPath)
  | some file =>
      if file = "" then Except.error ("No files in directory: " ++ dirPath)
      else Except.ok (joinPath dirPath file)

/-- Embeds the settling of the promise returned by `main` (app.ts lines
79-141) as a function of the awaited setup stages and of the outcomes of the
per-argument core operations.  The setup stages (`newGrpcConnection`,
`newIdentity`, `newSigner`, `connect`, `getNetwork`, `getContract`) are
awaited, so a setup failure rejects `main`'s promise.  The core operations,
however, run inside `process.argv.forEach(async function (val, ...) {...})`
(lines 119-138): `Array.prototype.forEach` invokes the callback and discards
its return value, so the promise returned by each async callback — the only
place a core operation's rejection could surface — is never awaited by
`main`, and `main`'s promise settles from the setup alone, with the `finally`
block (lines 139-140) empty.  Hence `opResults`, the outcomes of the core
operations triggered by the arguments, cannot influence the settled value. -/
def mainSettledResult (setup : Except String Unit)
    (opResults : List (Except String Unit)) : Except String Unit :=
  match setup with
  | Except.error e => Except.error e
  | Except.ok _ => Except.ok ()

/-- Embeds `main().catch(...)` (app.ts lines 143-146): `process.exitCode` is
set to 1 exactly when the promise returned by `main` rejects; otherwise it is
left at its default 0. -/
def processExitCode (mainResult : Except String Unit) : Nat :=
  match mainResult with
  | Except.error _ => 1
  | Except.ok _ => 0

/-- Embeds the `finally` block of `main` (app.ts lines 139-140) as the list
of release actions it performs.  The block is empty — it contains no
statement at all — so no release action (neither `gateway.close()` nor
`client.close()`) is ever performed. -/
def mainFinallyActions : List String := []

/-- Number of times the gateway channel is released at process shutdown:
occurrences of a gateway close action in the `finally` block's action
list. -/
def gatewayReleaseCount : Nat :=
  (mainFinallyActions.filter (fun a => a = "gateway.close")).length

/-- Number of times the underlying gRPC client connection is released at
process shutdown. -/
def clientReleaseCount : Nat :=
  (mainFinallyActions.filter (fun a => a = "client.close")).length

/-- Empty needle occurs in every haystack. -/
theorem charsInfixOf_nil (l : List Char) : charsInfixOf [] l = true := by
  cases l with
  | nil => rfl
  | cons d rest => rfl

/-- Every owner string contains the empty candidate name. -/
theorem strIncludes_empty_name (s : String) : strIncludes s "" = true :=
  charsInfixOf_nil s.toList

/-- C1: the claim states that a matched asset with prior size `"2"` is
updated with size `parseInt(match.size) + 1` rendered as a string, i.e.
`"3"`.  Evaluating the code at such an input shows the divergence: the code
computes `(Size + 1).toString()`, which on the string `"2"` is the
concatenation `"21"`, not `"3"`; the identifier and the owner are as the
claim says. -/
theorem vote_matched_size_is_string_concat :
    createAssetWithName [⟨"asset42", "", "2", "Bobby", ""⟩] "Bob" 7 =
      [Tx.updateAsset "asset42" "" "21" "Bob" ""] ∧ ("21" : String) ≠ "3" :=
  ⟨rfl, by decide⟩

/-- C2: both scans proceed in collection order, a record matches exactly when
the candidate name is a substring of its `Owner` field (case-sensitive, not
exact match), the first match wins and the scan stops there; the query scan
and the vote scan implement the same policy; in particular with owners
`"Tomas"` then `"Tom"` in that order, voting for `"Tom"` matches and updates
the `"Tomas"` record. -/
theorem scan_first_match_substring :
    (∀ (name : String) (a : Asset) (rest : List Asset),
        strIncludes a.Owner name = true → findMatch name (a :: rest) = some a) ∧
    (∀ (name : String) (a : Asset) (rest : List Asset),
        strIncludes a.Owner name = false →
          findMatch name (a :: rest) = findMatch name rest) ∧
    strIncludes "Tomas" "Tom" = true ∧
    strIncludes "tomas" "Tom" = false ∧
    (∀ (assets : List Asset) (name : String),
        readAssetByName assets name = findMatch name assets) ∧
    (∀ (id1 id2 : String) (rnd : Nat),
        createAssetWithName
            [⟨id1, "", "1", "Tomas", ""⟩, ⟨id2, "", "1", "Tom", ""⟩] "Tom" rnd =
          [Tx.updateAsset id1 "" "11" "Tom" ""]) := by
  refine ⟨?_, ?_, by decide, by decide, ?_, ?_⟩
  · intro name a rest h
    simp [findMatch, h]
  · intro name a rest h
    simp [findMatch, h]
  · intro assets name
    induction assets with
    | nil => rfl
    | cons a rest ih => simp [readAssetByName, findMatch, ih]
  · intro id1 id2 rnd
    rfl

/-- Witness for C2 at a concrete input: owner `"Cathy"` contains `"Cat"`, so
the scan returns the first record without looking at the exact-match record
behind it. -/
theorem scan_first_match_substring_witness :
    findMatch "Cat" [⟨"a1", "", "1", "Cathy", ""⟩, ⟨"a2", "", "1", "Cat", ""⟩] =
      some ⟨"a1", "", "1", "Cathy", ""⟩ :=
  scan_first_match_substring.1 "Cat" ⟨"a1", "", "1", "Cathy", ""⟩
    [⟨"a2", "", "1", "Cat", ""⟩] (by decide)

/-- C3: when no asset's owner contains the candidate name as a substring, the
vote submits exactly one `CreateAsset` transaction — for a freshly generated
identifier, with size `"1"`, owner the candidate name, and empty color and
appraised value — and no `UpdateAsset`. -/
theorem vote_unmatched_creates_one_asset (assets : List Asset) (name : String)
    (rnd : Nat) (h : ∀ a ∈ assets, strIncludes a.Owner name = false) :
    createAssetWithName assets name rnd =
      [Tx.createAsset (freshAssetId rnd) "" "1" name ""] := by
  have hf : ∀ (l : List Asset), (∀ a ∈ l, strIncludes a.Owner name = false) →
      findMatch name l = none := by
    intro l
    induction l with
    | nil => intro _; rfl
    | cons a rest ih =>
        intro hl
        have ha := hl a (List.mem_cons_self a rest)
        simpa [findMatch, ha] using ih (fun b hb => hl b (List.mem_cons_of_mem a hb))
  simp [createAssetWithName, hf assets h]

/-- Witness for C3 at a concrete input: voting for `"Dog"` against a
collection whose only owner is `"Cat"` creates a fresh asset with size
`"1"`. -/
theorem vote_unmatched_creates_one_asset_witness :
    createAssetWithName [⟨"a9", "", "1", "Cat", ""⟩] "Dog" 5 =
      [Tx.createAsset (freshAssetId 5) "" "1" "Dog" ""] :=
  vote_unmatched_creates_one_asset [⟨"a9", "", "1", "Cat", ""⟩] "Dog" 5 (by decide)

/-- C4: the claim states that every uncaught core-operation failure reaches
the top level and makes the process exit non-zero.  In the code the core
operations run inside `process.argv.forEach(async ...)`, whose callback
promises are discarded, so no core-operation rejection ever reaches the
`main().catch` handler: whatever the core operations' outcomes, when setup
succeeds the settled result of `main` is success and the exit code stays 0 —
in particular at the concrete failing input where a vote's submission is
rejected. -/
theorem core_failures_leave_exit_code_zero :
    (∀ opResults : List (Except String Unit),
        processExitCode (mainSettledResult (Except.ok ()) opResults) = 0) ∧
    processExitCode (mainSettledResult (Except.ok ())
        [Except.error "TransactionRejected during vote"]) = 0 :=
  ⟨fun _ => rfl, rfl⟩

/-- C5: the claim states that the gateway channel and its underlying
resources are released exactly once at process shutdown.  The `finally`
block of `main` is empty, so the list of release actions performed is empty
and both the gateway and the gRPC client are released zero times, not
once. -/
theorem main_finally_releases_nothing :
    mainFinallyActions = [] ∧ gatewayReleaseCount = 0 ∧ clientReleaseCount = 0 :=
  ⟨rfl, rfl, rfl⟩

/-- C6: the vote invocation reads and decodes the full asset collection
before any state-changing submission: when the `GetAllAssets` evaluation or
the decoding of its payload fails, the invocation propagates that error and
submits no transaction at all; when it succeeds, the submission is the one
determined by the completed scan. -/
theorem vote_no_submit_on_failed_read :
    (∀ (e name : String) (rnd : Nat),
        createAssetWithNameRun (Except.error e) name rnd = Except.error e ∧
        submittedTxs (createAssetWithNameRun (Except.error e) name rnd) = []) ∧
    (∀ (assets : List Asset) (name : String) (rnd : Nat),
        createAssetWithNameRun (Except.ok assets) name rnd =
          Except.ok (createAssetWithName assets name rnd)) :=
  ⟨fun _ _ _ => ⟨rfl, rfl⟩, fun _ _ _ => rfl⟩

/-- C7: initialization attempts exactly three `CreateAsset` submissions for
the fixed seed set (owner `Tom` with size `1`, owners `Cat` and `Dog` with
size `2`), each wrapped in a catch that swallows any submission failure, so
`initLedger` completes without a fatal error for every outcome oracle; in
particular a second run in which all three submissions are rejected as
duplicates still completes with all three rejections swallowed. -/
theorem initLedger_swallows_all_rejections (submit : Tx → Except String Unit)
    (r1 r2 r3 r4 r5 r6 : Nat) :
    initLedger submit r1 r2 r3 =
      Except.ok [Tx.createAsset (freshAssetId r1) "" "1" "Tom" "",
        Tx.createAsset (freshAssetId r2) "" "2" "Cat" "",
        Tx.createAsset (freshAssetId r3) "" "2" "Dog" ""] ∧
    initLedger (fun _ => Except.error "TransactionRejected: asset already exists")
        r4 r5 r6 =
      Except.ok [Tx.createAsset (freshAssetId r4) "" "1" "Tom" "",
        Tx.createAsset (freshAssetId r5) "" "2" "Cat" "",
        Tx.createAsset (freshAssetId r6) "" "2" "Dog" ""] := by
  have hc : ∀ (s : Tx → Except String Unit) (tx : Tx),
      tryCatchSubmit s tx = Except.ok () := by
    intro s tx
    unfold tryCatchSubmit
    cases s tx <;> rfl
  constructor
  · simp [initLedger, hc, Except.bind]
  · simp [initLedger, hc, Except.bind]

/-- C8: the credential loader returns the joined path of the first file name
in the listing order delivered by the file system, and fails with the
not-found error exactly when the listing is empty (under the file-system
guarantee that delivered names are non-empty, since the code's falsy check
would also fire on an empty-string name). -/
theorem getFirstDirFileName_first_or_notfound (dirPath : String)
    (files : List String) (h : ∀ f ∈ files, f ≠ "") :
    getFirstDirFileName dirPath files =
      (match files with
       | [] => Except.error ("No files in directory: " ++ dirPath)
       | f :: _ => Except.ok (joinPath dirPath f)) ∧
    ((∃ e, getFirstDirFileName dirPath files = Except.error e) ↔ files = []) := by
  cases files with
  | nil =>
      constructor
      · rfl
      · simp [getFirstDirFileName]
  | cons f rest =>
      have hf : f ≠ "" := h f (List.mem_cons_self f rest)
      constructor
      · simp [getFirstDirFileName, hf]
      · simp [getFirstDirFileName, hf]

/-- Witness for C8 at a concrete input: a two-entry listing yields the first
entry joined to the directory path. -/
theorem getFirstDirFileName_first_or_notfound_witness :
    getFirstDirFileName "keystore" ["key1", "key2"] =
      Except.ok (joinPath "keystore" "key1") :=
  (getFirstDirFileName_first_or_notfound "keystore" ["key1", "key2"] (by decide)).1

/-- C9: the gateway session binds the four timeout classes as functions of
the call-start time: evaluate at now + 5 s, endorse at now + 15 s, submit at
now + 5 s, and commit status at now + 60 s (all in milliseconds). -/
theorem gateway_timeout_deadlines (now : Nat) :
    evaluateDeadline now = now + 5000 ∧ endorseDeadline now = now + 15000 ∧
      submitDeadline now = now + 5000 ∧ commitStatusDeadline now = now + 60000 :=
  ⟨rfl, rfl, rfl, rfl⟩

/-- C10 counterexample: the claim states that an empty-name vote increments
the first asset's count.  At a first asset of size `"2"` the submitted size
is the concatenation `"21"`, not the increment `"3"`, so the claim as stated
is false (the match on the first record, the owner overwrite and the absence
of a creation are as claimed). -/
theorem empty_name_vote_increment_counterexample :
    createAssetWithName [⟨"a7", "", "2", "Alice", ""⟩] "" 3 =
      [Tx.updateAsset "a7" "" "21" "" ""] ∧ ("21" : String) ≠ "3" :=
  ⟨rfl, by decide⟩

/-- C10 (amended): for every vote or query invocation with empty candidate
name and non-empty decoded collection, the substring match succeeds on the
very first record in collection order; the vote submits a single
`UpdateAsset` for the first asset's identifier with owner overwritten to the
empty string and size set to the code's string-number addition of the first
asset's size and 1 (appending the character `1`), instead of creating a new
asset, and the query scan returns that same first record. -/
theorem empty_name_vote_updates_first_asset (a : Asset) (rest : List Asset)
    (rnd : Nat) :
    createAssetWithName (a :: rest) "" rnd =
      [Tx.updateAsset a.ID "" (jsSizePlusOne a.Size) "" ""] ∧
    readAssetByName (a :: rest) "" = some a := by
  constructor
  · simp [createAssetWithName, findMatch, strIncludes_empty_name]
  · simp [readAssetByName, strIncludes_empty_name]

end VotingLedger
